import Mathlib

/-!
Shallow embedding of the log-collection core in
`client/client-multi/client-c/src/kaa_logging.c`.

The collector orchestrates a pluggable log-storage backend, an upload
decision policy, a status view and upload properties.  Machine integers
are modelled as `Nat` (with an explicit `% 2 ^ 16` where the C code uses
`uint16_t` arithmetic that may wrap) and the signed `ssize_t` remaining
budget as `Int`.  Fallible C functions return their `kaa_error_t` code
explicitly.  Helper functions whose definitions live outside the provided
sources (`kaa_platform_utils.c`, `kaa_status.c`, the entry/record type
declarations) are modelled from the spec and say so in their doc comments.
-/

/-- Error codes used by `kaa_logging.c` (subset of `kaa_error.h`). -/
inductive kaa_error where
  | KAA_ERR_NONE
  | KAA_ERR_BADPARAM
  | KAA_ERR_NOMEM
  | KAA_ERR_BAD_STATE
  | KAA_ERR_NOT_INITIALIZED
  | KAA_ERR_WRITE_FAILED
deriving DecidableEq, Repr

open kaa_error

/-- Upload decisions returned by the pluggable policy function. -/
inductive kaa_log_upload_decision where
  | NOOP
  | UPLOAD
  | CLEANUP
deriving DecidableEq, Repr

/-- `KAA_MAX_PADDING_LENGTH` in `kaa_logging.c`. -/
def KAA_MAX_PADDING_LENGTH : Nat := 3

/-- Modelled from the spec: the generic extension header
(`KAA_EXTENSION_HEADER_SIZE` from `kaa_platform_common.h`, not under the
provided sources) is a fixed 8-byte header: 1-byte type, 3 bytes of
flags, and a 4-byte body length field. -/
def KAA_EXTENSION_HEADER_SIZE : Nat := 8

/-- Modelled from the spec: `kaa_aligned_size_get` from
`kaa_platform_utils.c` (not under the provided sources) rounds a size up
to the next multiple of 4 — the working assumption the spec records for
the alignment constant. -/
def kaa_aligned_size_get (size : Nat) : Nat :=
  size + (4 - size % 4) % 4

/-- A serialized log record as held by the backend
(`kaa_log_entry_t`): the C struct carries a data pointer and a size; the
null-pointer sentinel is modelled by wrapping the entry in `Option` at
the `get_record` interface, so only the size remains here. -/
structure kaa_log_entry where
  record_size : Nat
deriving DecidableEq, Repr

/-- Modelled from the spec: an unserialized application record
(`kaa_user_log_record_t`, declared outside the provided sources) exposes
`get_size`; the spec speaks of zero or negative sizes, so the result is
an `Int`.  Its `serialize` writes opaque bytes we do not track. -/
structure kaa_user_log_record where
  get_size : Int

/-- Upload properties (`kaa_log_upload_properties_t`). -/
structure kaa_log_upload_properties where
  max_log_storage_volume : Nat
  max_log_block_size : Nat
deriving DecidableEq, Repr

/-- Storage status view (`kaa_storage_status_t`): two getter callbacks,
modelled as the values they return. -/
structure kaa_storage_status where
  get_records_count : Nat
  get_total_size : Nat
deriving DecidableEq, Repr

/-- The pluggable log-storage backend (`kaa_log_storage_t`), a struct of
function pointers operating on backend-private state of type `σ`.
`get_record` and the two acknowledgment callbacks are nullable function
pointers, hence `Option`. -/
structure kaa_log_storage (σ : Type) where
  add_log_record : kaa_log_entry → σ → σ
  get_record : Option (Nat → Int → σ → Option kaa_log_entry × σ)
  upload_succeeded : Option (Nat → σ → σ)
  upload_failed : Option (Nat → σ → σ)
  shrink_to_size : Nat → σ → σ

/-- Modelled from the spec: the durable status store (`kaa_status_t`,
implemented outside the provided sources) persists a 16-bit log bucket
id; `kaa_status_get_log_bucket_id` reads it back.  No operation in
`kaa_logging.c` ever writes it. -/
structure kaa_status where
  log_bucket_id : Nat
deriving DecidableEq, Repr

/-- `struct kaa_log_collector`.  Pointer fields that `kaa_logging_init`
may leave null are `Option`; `log_bucket_id` is the in-memory `uint16_t`
counter, `0` meaning "not yet read from durable status". -/
structure kaa_log_collector (σ : Type) where
  log_bucket_id : Nat
  log_storage : Option (kaa_log_storage σ)
  log_properties : Option kaa_log_upload_properties
  log_storage_status : Option kaa_storage_status
  is_upload_needed_fn : Option (kaa_storage_status → kaa_log_upload_decision)
  status : kaa_status
  sync_handler_present : Bool

/-- Modelled from the spec: a platform message writer
(`kaa_platform_message_writer_t`) is a byte buffer with a current
position and a capacity (the distance from buffer start to the `end`
pointer); we track positions, not byte contents. -/
structure kaa_platform_message_writer where
  pos : Nat
  cap : Nat
deriving DecidableEq, Repr

/-- Modelled from the spec: `kaa_platform_message_write` from
`kaa_platform_utils.c` copies `size` bytes if they fit before the
buffer's end and fails with a write error (here `none`) when the buffer
is exhausted. -/
def kaa_platform_message_write (w : kaa_platform_message_writer) (size : Nat) :
    Option kaa_platform_message_writer :=
  if w.pos + size ≤ w.cap then some ⟨w.pos + size, w.cap⟩ else none

/-- Modelled from the spec: `kaa_platform_message_write_aligned` writes
the payload padded to a 4-byte alignment boundary, failing when the
aligned footprint does not fit. -/
def kaa_platform_message_write_aligned (w : kaa_platform_message_writer) (size : Nat) :
    Option kaa_platform_message_writer :=
  kaa_platform_message_write w (kaa_aligned_size_get size)

/-- Modelled from the spec: `kaa_platform_message_extension_header_write`
emits the fixed 8-byte extension header (type, flags, length
placeholder), failing when it does not fit. -/
def kaa_platform_message_extension_header_write (w : kaa_platform_message_writer) :
    Option kaa_platform_message_writer :=
  kaa_platform_message_write w KAA_EXTENSION_HEADER_SIZE

/-- Outcome of `update_storage`: the backend state after a possible
shrink, how many times the decision policy ran (1 on the defined paths),
and whether a logging sync was requested from the transport. -/
structure update_storage_outcome (σ : Type) where
  storage : σ
  policy_evals : Nat
  sync_triggered : Bool

/-- `update_storage` (static, `kaa_logging.c` lines 109-131): evaluate the
decision policy on the status view; on `CLEANUP` shrink the backend to
`max_log_storage_volume`; on `UPLOAD` invoke the transport sync handler
when one is registered.  The C dereferences `is_upload_needed_fn`,
`log_storage_status`, `log_storage` (and, in the cleanup branch,
`log_properties`) unconditionally; a null there is undefined behavior in
C, modelled as a no-op and never exercised by the theorems below. -/
def update_storage {σ : Type} (self : kaa_log_collector σ) (stor : σ) :
    update_storage_outcome σ :=
  match self.is_upload_needed_fn, self.log_storage_status with
  | some need_upl, some status_view =>
    match need_upl status_view with
    | kaa_log_upload_decision.CLEANUP =>
      match self.log_storage, self.log_properties with
      | some storage_if, some props =>
        ⟨storage_if.shrink_to_size props.max_log_storage_volume stor, 1, false⟩
      | _, _ => ⟨stor, 1, false⟩
    | kaa_log_upload_decision.UPLOAD => ⟨stor, 1, self.sync_handler_present⟩
    | kaa_log_upload_decision.NOOP => ⟨stor, 1, false⟩
  | _, _ => ⟨stor, 0, false⟩

/-- Observable outcome of `kaa_logging_add_record`: the error code, the
backend state afterwards, how many `add_log_record` calls were made, and
how many times the decision policy was evaluated. -/
structure add_record_outcome (σ : Type) where
  error : kaa_error
  storage : σ
  add_calls : Nat
  policy_evals : Nat
  sync_triggered : Bool
deriving DecidableEq, Repr

/-- `kaa_logging_add_record` (`kaa_logging.c` lines 133-169).  The guard
checks `log_storage`, `is_upload_needed_fn` and `log_storage_status`
(it does not look at `log_properties`); then the entry size must be
positive, the serialized record is handed to the backend, and the
decision policy is re-evaluated.  Allocation is modelled as always
succeeding (the `KAA_ERR_NOMEM` paths need an out-of-memory oracle the
claims do not touch). -/
def kaa_logging_add_record {σ : Type} (self : kaa_log_collector σ)
    (entry : kaa_user_log_record) (stor : σ) : add_record_outcome σ :=
  match self.log_storage, self.is_upload_needed_fn, self.log_storage_status with
  | some storage_if, some _, some _ =>
    let record_size := entry.get_size
    if record_size > 0 then
      let stor' := storage_if.add_log_record ⟨record_size.toNat⟩ stor
      let upd := update_storage self stor'
      ⟨KAA_ERR_NONE, upd.storage, 1, upd.policy_evals, upd.sync_triggered⟩
    else
      ⟨KAA_ERR_BADPARAM, stor, 0, 0, false⟩
  | _, _, _ => ⟨KAA_ERR_BAD_STATE, stor, 0, 0, false⟩

/-- `kaa_profile_request_get_size` (`kaa_logging.c` lines 171-187):
worst-case size estimate for the outgoing logging extension. -/
def kaa_profile_request_get_size {σ : Type} (self : kaa_log_collector σ) :
    kaa_error × Nat :=
  match self.log_storage_status, self.log_properties with
  | some status_view, some props =>
    let records_count := status_view.get_records_count
    let total_size := status_view.get_total_size
    let actual_size := records_count * 4 + records_count * KAA_MAX_PADDING_LENGTH + total_size
    (KAA_ERR_NONE,
      KAA_EXTENSION_HEADER_SIZE + 4 +
        (if actual_size < props.max_log_block_size then actual_size
         else props.max_log_block_size))
  | _, _ => (KAA_ERR_NOT_INITIALIZED, 0)

/-- Result of the record-extraction loop inside
`kaa_logging_request_serialize`: either the loop ran to the sentinel, or
a write step failed and the batch was aborted.  `emitted` lists the sizes
of the records written, in order; `uf_called` records whether the
backend's optional `upload_failed` callback was invoked. -/
inductive serialize_loop_out (σ : Type) where
  | done (stor : σ) (w : kaa_platform_message_writer) (remaining : Int)
      (count : Nat) (emitted : List Nat)
  | write_failed (stor : σ) (uf_calls : List Nat)
deriving DecidableEq, Repr

/-- The `for` loop of `kaa_logging_request_serialize` (`kaa_logging.c`
lines 213-229), with an explicit fuel bound on the number of iterations
(`none` means the fuel ran out before the backend returned its
sentinel).  Each iteration: fetch a record, bump the count (a `uint16_t`
in C), charge `aligned_size + 4` against the remaining budget, then
write the 4-byte size field and the aligned payload, aborting — after
notifying `upload_failed` when that callback is non-null — if either
write fails. -/
def serialize_loop {σ : Type} (storage_if : kaa_log_storage σ)
    (get : Nat → Int → σ → Option kaa_log_entry × σ) (bucket_id : Nat) :
    Nat → σ → kaa_platform_message_writer → Int → Nat →
    Option (serialize_loop_out σ)
  | 0, _, _, _, _ => none
  | fuel + 1, stor, w, remaining, count =>
    match get bucket_id remaining stor with
    | (none, stor') => some (.done stor' w remaining count [])
    | (some entry, stor') =>
      let count' := (count + 1) % 2 ^ 16
      let remaining' := remaining - ((kaa_aligned_size_get entry.record_size : Int) + 4)
      match kaa_platform_message_write w 4 with
      | none =>
        some (.write_failed
          (match storage_if.upload_failed with
           | some uf => uf bucket_id stor'
           | none => stor')
          (if storage_if.upload_failed.isSome then [bucket_id] else []))
      | some w' =>
        match kaa_platform_message_write_aligned w' entry.record_size with
        | none =>
          some (.write_failed
            (match storage_if.upload_failed with
             | some uf => uf bucket_id stor'
             | none => stor')
            (if storage_if.upload_failed.isSome then [bucket_id] else []))
        | some w'' =>
          (serialize_loop storage_if get bucket_id fuel stor' w'' remaining' count').map
            fun out =>
              match out with
              | .done s wf r c e => .done s wf r c (entry.record_size :: e)
              | .write_failed s b => .write_failed s b

/-- Observable outcome of `kaa_logging_request_serialize`: the error
code, the collector's in-memory bucket id afterwards, the bucket id
written on the wire (when the function got that far), the writer and
backend state, the back-patched record-count and body-length fields
(present only when the function completed), the emitted record sizes in
order, the bucket ids passed to `upload_failed`, and the durable status
object (which no path of the function writes). -/
structure serialize_outcome (σ : Type) where
  error : kaa_error
  log_bucket_id : Nat
  wire_bucket_id : Option Nat
  writer : kaa_platform_message_writer
  storage : σ
  patched_count : Option Nat
  patched_length : Option Nat
  emitted : List Nat
  uf_calls : List Nat
  status : kaa_status
deriving DecidableEq, Repr

/-- `kaa_logging_request_serialize` (`kaa_logging.c` lines 189-237).
After the guard on `log_storage`, `log_storage->get_record` and
`log_properties`, the 8-byte extension header is written (its length
field, at offset start + 4, back-patched later); the bucket id is read
from durable status when the in-memory id is 0, then incremented
(`uint16_t` arithmetic); 2 bytes of bucket id and 2 reserved bytes of
record count are written with raw pointer stores (no bounds check in the
C); the record loop runs against `max_log_block_size`; finally the body
length `4 + (max_log_block_size - remaining)` (a `uint32_t`) and the
record count are back-patched.  The durable status read is modelled from
the spec as always succeeding, so the `KAA_ERR_BAD_STATE` branch at line
202 is unreachable here; nothing writes the status back.  `none` means
the loop fuel ran out. -/
def kaa_logging_request_serialize {σ : Type} (self : kaa_log_collector σ)
    (w : kaa_platform_message_writer) (stor : σ) (fuel : Nat) :
    Option (serialize_outcome σ) :=
  match self.log_storage with
  | none =>
    some ⟨KAA_ERR_BAD_STATE, self.log_bucket_id, none, w, stor, none, none, [], [], self.status⟩
  | some storage_if =>
    match storage_if.get_record, self.log_properties with
    | none, _ =>
      some ⟨KAA_ERR_BAD_STATE, self.log_bucket_id, none, w, stor, none, none, [], [], self.status⟩
    | _, none =>
      some ⟨KAA_ERR_BAD_STATE, self.log_bucket_id, none, w, stor, none, none, [], [], self.status⟩
    | some get, some props =>
      match kaa_platform_message_extension_header_write w with
      | none =>
        some ⟨KAA_ERR_WRITE_FAILED, self.log_bucket_id, none, w, stor, none, none, [], [],
          self.status⟩
      | some w1 =>
        let bucket_id :=
          ((if self.log_bucket_id = 0 then self.status.log_bucket_id
            else self.log_bucket_id) + 1) % 2 ^ 16
        let w2 : kaa_platform_message_writer := ⟨w1.pos + 2 + 2, w1.cap⟩
        let remaining : Int := props.max_log_block_size
        match serialize_loop storage_if get bucket_id fuel stor w2 remaining 0 with
        | none => none
        | some (.write_failed stor' uf) =>
          some ⟨KAA_ERR_WRITE_FAILED, bucket_id, some bucket_id, w2, stor', none, none, [], uf,
            self.status⟩
        | some (.done stor' w3 remaining' count emitted) =>
          let total_size : Nat :=
            ((4 + ((props.max_log_block_size : Int) - remaining')).toNat) % 2 ^ 32
          some ⟨KAA_ERR_NONE, bucket_id, some bucket_id, w3, stor',
            some count, some total_size, emitted, [], self.status⟩

/-- Observable outcome of `kaa_logging_handle_server_sync`: the error
code, the backend state afterwards, how far the reader advanced, the
bucket ids passed to each acknowledgment callback, and how many times
the decision policy was evaluated. -/
structure server_sync_outcome (σ : Type) where
  error : kaa_error
  storage : σ
  reader_pos : Nat
  succeeded_calls : List Nat
  failed_calls : List Nat
  policy_evals : Nat
  sync_triggered : Bool

/-- A platform message reader positioned inside a received byte buffer. -/
structure kaa_platform_message_reader where
  buf : List Nat
  pos : Nat

/-- The big-endian 16-bit bucket id at the reader's position
(`KAA_NTOHS` of the two bytes at `current`, line 246). -/
def read_bucket_id (r : kaa_platform_message_reader) : Nat :=
  r.buf.getD r.pos 0 * 2 ^ 8 + r.buf.getD (r.pos + 1) 0

/-- The 1-byte result code two bytes past the reader's position
(line 248). -/
def read_result_code (r : kaa_platform_message_reader) : Nat :=
  r.buf.getD (r.pos + 2) 0

/-- `kaa_logging_handle_server_sync` (`kaa_logging.c` lines 239-265).
Reads a big-endian 2-byte bucket id and a 1-byte result code occupying a
2-byte slot (the reader advances 4 bytes in total); result code `0x00`
routes to `upload_succeeded`, anything else to `upload_failed` (each
only when the callback is non-null); then the decision policy is
re-evaluated once.  The `extension_options` and `extension_length`
arguments are accepted and never used, exactly as in the C. -/
def kaa_logging_handle_server_sync {σ : Type} (self : kaa_log_collector σ)
    (reader : kaa_platform_message_reader) (extension_options : Nat)
    (extension_length : Nat) (stor : σ) : server_sync_outcome σ :=
  let _ := extension_options
  let _ := extension_length
  match self.log_storage with
  | none => ⟨KAA_ERR_NOT_INITIALIZED, stor, reader.pos, [], [], 0, false⟩
  | some storage_if =>
    let id := read_bucket_id reader
    let result := read_result_code reader
    let pos' := reader.pos + 2 + 2
    if result = 0 then
      match storage_if.upload_succeeded with
      | some us =>
        let upd := update_storage self (us id stor)
        ⟨KAA_ERR_NONE, upd.storage, pos', [id], [], upd.policy_evals, upd.sync_triggered⟩
      | none =>
        let upd := update_storage self stor
        ⟨KAA_ERR_NONE, upd.storage, pos', [], [], upd.policy_evals, upd.sync_triggered⟩
    else
      match storage_if.upload_failed with
      | some uf =>
        let upd := update_storage self (uf id stor)
        ⟨KAA_ERR_NONE, upd.storage, pos', [], [id], upd.policy_evals, upd.sync_triggered⟩
      | none =>
        let upd := update_storage self stor
        ⟨KAA_ERR_NONE, upd.storage, pos', [], [], upd.policy_evals, upd.sync_triggered⟩

/-- On-wire footprint of one emitted record: its 4-byte size field plus
the payload padded to 4-byte alignment — exactly the amount charged
against the remaining budget at line 218. -/
def record_footprint (size : Nat) : Nat :=
  kaa_aligned_size_get size + 4

/-- Total on-wire footprint of a list of emitted record sizes. -/
def batch_footprint (emitted : List Nat) : Nat :=
  (emitted.map record_footprint).sum

/-- The `get_record` contract from the spec: every record the backend
returns fits within the remaining budget it was offered, where "fits"
matches the collector's accounting `aligned_size + 4`. -/
def get_record_conforming {σ : Type}
    (get : Nat → Int → σ → Option kaa_log_entry × σ) : Prop :=
  ∀ bucket budget s e s', get bucket budget s = (some e, s') →
    (record_footprint e.record_size : Int) ≤ budget

/-- A simple conforming in-memory backend used for the concrete
scenarios: state is the list of pending record sizes in arrival order;
`get_record` offers the oldest record when its footprint fits the budget
and the sentinel otherwise. -/
def list_get_record : Nat → Int → List Nat → Option kaa_log_entry × List Nat
  | _, _, [] => (none, [])
  | _, budget, s :: rest =>
    if (record_footprint s : Int) ≤ budget then (some ⟨s⟩, rest)
    else (none, s :: rest)

/-- The in-memory backend interface over `list_get_record`; the two
acknowledgment callbacks are present (and keep the state unchanged)
exactly when the corresponding flag is set. -/
def list_log_storage (us uf : Bool) : kaa_log_storage (List Nat) where
  add_log_record := fun r l => l ++ [r.record_size]
  get_record := some list_get_record
  upload_succeeded := if us then some (fun _ l => l) else none
  upload_failed := if uf then some (fun _ l => l) else none
  shrink_to_size := fun _ l => l

/-- A fully initialized collector over the in-memory backend with a
policy that never asks for action, in-memory bucket id `mem` and durable
status id `persisted`. -/
def test_collector (props : kaa_log_upload_properties) (persisted mem : Nat) :
    kaa_log_collector (List Nat) where
  log_bucket_id := mem
  log_storage := some (list_log_storage true true)
  log_properties := some props
  log_storage_status := some ⟨0, 0⟩
  is_upload_needed_fn := some fun _ => kaa_log_upload_decision.NOOP
  status := ⟨persisted⟩
  sync_handler_present := false

/-- An uninitialized collector: `kaa_log_collector_create` leaves
`log_storage`, `log_properties`, `log_storage_status` and the decision
function null and the in-memory bucket id 0. -/
def uninit_collector : kaa_log_collector (List Nat) :=
  ⟨0, none, none, none, none, ⟨0⟩, false⟩

/-- A collector whose backend, status view and decision function are
bound but whose `log_properties` pointer is still null. -/
def no_props_collector : kaa_log_collector (List Nat) :=
  ⟨0, some (list_log_storage true true), none, some ⟨0, 0⟩,
    some fun _ => kaa_log_upload_decision.NOOP, ⟨0⟩, false⟩

/-- A collector whose status view reports 3 records totalling 50 bytes. -/
def c9_collector : kaa_log_collector (List Nat) :=
  { test_collector ⟨1000, 100⟩ 0 0 with log_storage_status := some ⟨3, 50⟩ }

/-- A run of successive `kaa_logging_request_serialize` calls against an
empty backend, starting from durable status id `p` and in-memory id `m`:
the list of bucket ids put on the wire, each call feeding its updated
in-memory id (and the unchanged durable status) to the next.  Restart is
modelled by starting a new run with `m = 0` and the same `p`. -/
def serialize_run (p : Nat) : Nat → Nat → List Nat
  | _, 0 => []
  | m, n + 1 =>
    match kaa_logging_request_serialize (test_collector ⟨1000, 100⟩ p m) ⟨0, 1000⟩ [] 1 with
    | some out => out.log_bucket_id :: serialize_run p out.log_bucket_id n
    | none => []

/-- The outcome of the write-failure scenario used below: a 14-byte
buffer holds the 8-byte header and the 4 raw bytes of bucket id and
count, but not the first record's 4-byte size field. -/
def c7_out : serialize_outcome (List Nat) :=
  ⟨KAA_ERR_WRITE_FAILED, 1, some 1, ⟨12, 14⟩, [], none, none, [], [1], ⟨0⟩⟩

/-- Outcome of the three-record scenario: records of sizes 10 and 50 are
emitted (on-wire footprints 16 and 56), the 60-byte record stays
buffered, and the back-patched fields are count 2 and body length
4 + 72 = 76. -/
def c2_out : serialize_outcome (List Nat) :=
  ⟨KAA_ERR_NONE, 1, some 1, ⟨84, 1000⟩, [60], some 2, some 76, [10, 50], [], ⟨0⟩⟩

/-- Outcome of the empty-storage scenario: a well-formed extension with
count 0 and body length 4 (the bucket-id and count fields only). -/
def c4_out : serialize_outcome (List Nat) :=
  ⟨KAA_ERR_NONE, 1, some 1, ⟨12, 1000⟩, [], some 0, some 4, [], [], ⟨0⟩⟩

lemma kaa_platform_message_write_eq_some {w w' : kaa_platform_message_writer} {n : Nat}
    (h : kaa_platform_message_write w n = some w') :
    w'.pos = w.pos + n ∧ w'.cap = w.cap := by
  unfold kaa_platform_message_write at h
  split at h
  · injection h with h
    subst h
    exact ⟨rfl, rfl⟩
  · exact Option.noConfusion h

lemma list_get_record_conforming : get_record_conforming list_get_record := by
  intro bucket budget s e s' h
  match s with
  | [] => simp [list_get_record] at h
  | a :: rest =>
    simp only [list_get_record] at h
    split at h
    · next hle =>
      injection h with h1 _
      injection h1 with h1
      subst h1
      exact hle
    · simp at h


lemma serialize_loop_done_spec {σ : Type} (storage_if : kaa_log_storage σ)
    (get : Nat → Int → σ → Option kaa_log_entry × σ) (bucket_id : Nat) (fuel : Nat) :
    ∀ (stor : σ) (w : kaa_platform_message_writer) (remaining : Int) (count : Nat)
      {stor' : σ} {w' : kaa_platform_message_writer} {remaining' : Int} {count' : Nat}
      {emitted : List Nat},
      count < 2 ^ 16 →
      serialize_loop storage_if get bucket_id fuel stor w remaining count =
        some (serialize_loop_out.done stor' w' remaining' count' emitted) →
      remaining' = remaining - (batch_footprint emitted : Int) ∧
      w'.pos = w.pos + batch_footprint emitted ∧
      w'.cap = w.cap ∧
      count' = (count + emitted.length) % 2 ^ 16 := by
  induction fuel with
  | zero =>
    intro stor w remaining count stor' w' remaining' count' emitted hc h
    simp [serialize_loop] at h
  | succ fuel ih =>
    intro stor w remaining count stor' w' remaining' count' emitted hc h
    rw [serialize_loop] at h
    split at h
    · next stor1 heq =>
      simp only [Option.some.injEq, serialize_loop_out.done.injEq] at h
      obtain ⟨h1, h2, h3, h4, h5⟩ := h
      subst h1; subst h2; subst h3; subst h4; subst h5
      refine ⟨by simp [batch_footprint], by simp [batch_footprint], rfl, ?_⟩
      simp [batch_footprint]
      omega
    · next e stor1 heq =>
      split at h
      · next hw1 => simp at h
      · next w1 hw1 =>
        split at h
        · next hw2 => simp at h
        · next w2 hw2 =>
          rw [Option.map_eq_some'] at h
          obtain ⟨out0, hloop, hf⟩ := h
          match out0 with
          | .write_failed s b => simp at hf
          | .done s wf r c e0 =>
            simp only [serialize_loop_out.done.injEq] at hf
            obtain ⟨h1, h2, h3, h4, h5⟩ := hf
            subst h1; subst h2; subst h3; subst h4; subst h5
            have hc1 : (count + 1) % 2 ^ 16 < 2 ^ 16 := Nat.mod_lt _ (by norm_num)
            obtain ⟨ihr, ihp, ihc, ihn⟩ := ih stor1 w2 _ _ hc1 hloop
            obtain ⟨hw1p, hw1c⟩ := kaa_platform_message_write_eq_some hw1
            rw [kaa_platform_message_write_aligned] at hw2
            obtain ⟨hw2p, hw2c⟩ := kaa_platform_message_write_eq_some hw2
            refine ⟨?_, ?_, ?_, ?_⟩
            · rw [ihr]
              simp only [batch_footprint, List.map_cons, List.sum_cons, record_footprint]
              push_cast
              ring
            · rw [ihp, hw2p, hw1p]
              simp only [batch_footprint, List.map_cons, List.sum_cons, record_footprint]
              omega
            · rw [ihc, hw2c, hw1c]
            · rw [ihn, Nat.mod_add_mod]
              congr 1
              simp only [List.length_cons]
              omega

lemma serialize_loop_budget {σ : Type} (storage_if : kaa_log_storage σ)
    (get : Nat → Int → σ → Option kaa_log_entry × σ) (bucket_id : Nat)
    (hconf : get_record_conforming get) (fuel : Nat) :
    ∀ (stor : σ) (w : kaa_platform_message_writer) (remaining : Int) (count : Nat)
      {stor' : σ} {w' : kaa_platform_message_writer} {remaining' : Int} {count' : Nat}
      {emitted : List Nat},
      0 ≤ remaining →
      serialize_loop storage_if get bucket_id fuel stor w remaining count =
        some (serialize_loop_out.done stor' w' remaining' count' emitted) →
      (batch_footprint emitted : Int) ≤ remaining := by
  induction fuel with
  | zero =>
    intro stor w remaining count stor' w' remaining' count' emitted h0 h
    simp [serialize_loop] at h
  | succ fuel ih =>
    intro stor w remaining count stor' w' remaining' count' emitted h0 h
    rw [serialize_loop] at h
    split at h
    · next stor1 heq =>
      simp only [Option.some.injEq, serialize_loop_out.done.injEq] at h
      obtain ⟨h1, h2, h3, h4, h5⟩ := h
      subst h5
      simpa [batch_footprint] using h0
    · next e stor1 heq =>
      split at h
      · next hw1 => simp at h
      · next w1 hw1 =>
        split at h
        · next hw2 => simp at h
        · next w2 hw2 =>
          rw [Option.map_eq_some'] at h
          obtain ⟨out0, hloop, hf⟩ := h
          match out0 with
          | .write_failed s b => simp at hf
          | .done s wf r c e0 =>
            simp only [serialize_loop_out.done.injEq] at hf
            obtain ⟨h1, h2, h3, h4, h5⟩ := hf
            subst h5
            have hfit : (record_footprint e.record_size : Int) ≤ remaining :=
              hconf bucket_id remaining stor e stor1 heq
            have h0' : (0 : Int) ≤ remaining - ((kaa_aligned_size_get e.record_size : Int) + 4) := by
              simp only [record_footprint] at hfit
              push_cast at hfit ⊢
              omega
            have := ih stor1 w2 _ _ h0' hloop
            simp only [batch_footprint, List.map_cons, List.sum_cons, record_footprint] at this ⊢
            push_cast at this ⊢
            omega

lemma serialize_loop_write_failed_spec {σ : Type} (storage_if : kaa_log_storage σ)
    (get : Nat → Int → σ → Option kaa_log_entry × σ) (bucket_id : Nat) (fuel : Nat) :
    ∀ (stor : σ) (w : kaa_platform_message_writer) (remaining : Int) (count : Nat)
      {stor' : σ} {uf : List Nat},
      serialize_loop storage_if get bucket_id fuel stor w remaining count =
        some (serialize_loop_out.write_failed stor' uf) →
      uf = (if storage_if.upload_failed.isSome then [bucket_id] else []) := by
  induction fuel with
  | zero =>
    intro stor w remaining count stor' uf h
    simp [serialize_loop] at h
  | succ fuel ih =>
    intro stor w remaining count stor' uf h
    rw [serialize_loop] at h
    split at h
    · next stor1 heq => simp at h
    · next e stor1 heq =>
      split at h
      · next hw1 =>
        simp only [Option.some.injEq, serialize_loop_out.write_failed.injEq] at h
        exact h.2.symm
      · next w1 hw1 =>
        split at h
        · next hw2 =>
          simp only [Option.some.injEq, serialize_loop_out.write_failed.injEq] at h
          exact h.2.symm
        · next w2 hw2 =>
          rw [Option.map_eq_some'] at h
          obtain ⟨out0, hloop, hf⟩ := h
          match out0 with
          | .done s wf r c e0 => simp at hf
          | .write_failed s b =>
            simp only [serialize_loop_out.write_failed.injEq] at hf
            obtain ⟨h1, h2⟩ := hf
            subst h2
            exact ih stor1 w2 _ _ hloop

lemma update_storage_policy_evals {σ : Type} (self : kaa_log_collector σ) (stor : σ)
    (need_upl : kaa_storage_status → kaa_log_upload_decision) (status_view : kaa_storage_status)
    (hf : self.is_upload_needed_fn = some need_upl)
    (hv : self.log_storage_status = some status_view) :
    (update_storage self stor).policy_evals = 1 := by
  simp only [update_storage, hf, hv]
  cases hd : need_upl status_view with
  | CLEANUP => cases self.log_storage <;> cases self.log_properties <;> rfl
  | UPLOAD => rfl
  | NOOP => rfl

lemma serialize_step_empty (p m : Nat) :
    kaa_logging_request_serialize (test_collector ⟨1000, 100⟩ p m) ⟨0, 1000⟩ [] 1 =
      some ⟨KAA_ERR_NONE, ((if m = 0 then p else m) + 1) % 2 ^ 16,
        some (((if m = 0 then p else m) + 1) % 2 ^ 16), ⟨12, 1000⟩, [], some 0, some 4, [], [],
        ⟨p⟩⟩ := rfl

lemma serialize_run_eq (p : Nat) :
    ∀ (n m : Nat), (if m = 0 then p else m) + n < 2 ^ 16 →
      serialize_run p m n = (List.range n).map (fun k => (if m = 0 then p else m) + 1 + k) := by
  intro n
  induction n with
  | zero => intro m h; simp [serialize_run]
  | succ n ih =>
    intro m h
    rw [serialize_run, serialize_step_empty p m]
    dsimp only
    set s := if m = 0 then p else m with hs
    have h1 : s + 1 < 2 ^ 16 := by omega
    rw [Nat.mod_eq_of_lt h1]
    have h2 : (if s + 1 = 0 then p else s + 1) = s + 1 := by simp
    have h3 := ih (s + 1) (by rw [h2]; omega)
    rw [h2] at h3
    rw [h3, List.range_succ_eq_map, List.map_cons, List.map_map]
    congr 1
    apply List.map_congr_left
    intro a _
    simp only [Function.comp_apply]
    omega

/-- C1, counterexample: with `max_log_block_size = 16` and a conforming
backend holding one 12-byte record (footprint 12 + 4 = 16, which fits the
offered budget 16 exactly), the serialized extension body — the
back-patched body length, covering bucket id, record count and records —
is 20 bytes, exceeding `max_log_block_size`.  So the claim that the body
never exceeds `max_log_block_size` is false as stated. -/
theorem C1_body_exceeds_block_size_cex :
    get_record_conforming list_get_record ∧
    kaa_logging_request_serialize (test_collector ⟨1000, 16⟩ 0 0) ⟨0, 100⟩ [12] 10 =
      some ⟨KAA_ERR_NONE, 1, some 1, ⟨28, 100⟩, [], some 1, some 20, [12], [], ⟨0⟩⟩ ∧
    (test_collector ⟨1000, 16⟩ 0 0).log_properties = some ⟨1000, 16⟩ ∧
    16 < 20 :=
  ⟨list_get_record_conforming, by decide, by decide, by decide⟩

/-- C1, amended: for every initialized collector and every backend whose
`get_record` respects the offered budget, a successful
`kaa_logging_request_serialize` emits records whose total on-wire
footprint never exceeds `max_log_block_size`; the back-patched body
length equals 4 plus that footprint (so it exceeds `max_log_block_size`
by at most the 4 bytes of bucket-id and count fields); and the writer
advances by exactly the emitted footprint past the header and id/count
fields, i.e. the per-record accounting `aligned_size + 4` matches the
bytes actually written. -/
theorem C1_budget_respect_amended {σ : Type} (self : kaa_log_collector σ)
    (storage_if : kaa_log_storage σ) (get : Nat → Int → σ → Option kaa_log_entry × σ)
    (props : kaa_log_upload_properties) (w : kaa_platform_message_writer) (stor : σ)
    (fuel : Nat) (out : serialize_outcome σ)
    (hs : self.log_storage = some storage_if)
    (hg : storage_if.get_record = some get)
    (hp : self.log_properties = some props)
    (hconf : get_record_conforming get)
    (h : kaa_logging_request_serialize self w stor fuel = some out)
    (he : out.error = KAA_ERR_NONE) :
    batch_footprint out.emitted ≤ props.max_log_block_size ∧
    out.patched_length = some ((4 + batch_footprint out.emitted) % 2 ^ 32) ∧
    (∀ L, out.patched_length = some L → L ≤ props.max_log_block_size + 4) ∧
    out.writer.pos = w.pos + KAA_EXTENSION_HEADER_SIZE + 4 + batch_footprint out.emitted := by
  simp only [kaa_logging_request_serialize, hs, hg, hp] at h
  split at h
  · next hw1 =>
    injection h with h
    subst h
    simp at he
  · next w1 hw1 =>
    split at h
    · exact Option.noConfusion h
    · next stor1 uf hloop =>
      injection h with h
      subst h
      simp at he
    · next stor1 w3 remaining1 count1 emitted1 hloop =>
      injection h with h
      subst h
      rw [kaa_platform_message_extension_header_write] at hw1
      obtain ⟨hw1p, hw1c⟩ := kaa_platform_message_write_eq_some hw1
      have hc0 : (0 : Nat) < 2 ^ 16 := by norm_num
      obtain ⟨hrem, hpos, hcap, hcnt⟩ :=
        serialize_loop_done_spec storage_if get _ fuel stor _ _ _ hc0 hloop
      have hbud : (batch_footprint emitted1 : Int) ≤ (props.max_log_block_size : Int) :=
        serialize_loop_budget storage_if get _ hconf fuel stor _ _ _ (by positivity) hloop
      have hbudn : batch_footprint emitted1 ≤ props.max_log_block_size := by exact_mod_cast hbud
      refine ⟨hbudn, ?_, ?_, ?_⟩
      · simp only [serialize_outcome.patched_length, Option.some.injEq]
        rw [hrem]
        congr 1
        omega
      · intro L hL
        simp only [serialize_outcome.patched_length, Option.some.injEq] at hL
        subst hL
        rw [hrem]
        have hx : (4 + ((props.max_log_block_size : Int) -
            ((props.max_log_block_size : Int) - (batch_footprint emitted1 : Int)))).toNat =
            4 + batch_footprint emitted1 := by omega
        rw [hx]
        have hle : (4 + batch_footprint emitted1) % 2 ^ 32 ≤ 4 + batch_footprint emitted1 :=
          Nat.mod_le _ _
        exact le_trans hle (by omega)
      · show w3.pos = w.pos + KAA_EXTENSION_HEADER_SIZE + 4 + batch_footprint emitted1
        have hpos' : w3.pos = w1.pos + 2 + 2 + batch_footprint emitted1 := hpos
        simp only [KAA_EXTENSION_HEADER_SIZE] at hw1p ⊢
        omega

/-- C1, witness: the amended theorem applied to the concrete
three-record scenario — footprint 72 ≤ 100, body length 76, and the
writer advanced from 0 to 84 = 8 + 4 + 72. -/
theorem C1_budget_respect_witness :
    batch_footprint c2_out.emitted ≤ 100 ∧
    c2_out.patched_length = some ((4 + batch_footprint c2_out.emitted) % 2 ^ 32) ∧
    c2_out.writer.pos = 0 + KAA_EXTENSION_HEADER_SIZE + 4 + batch_footprint c2_out.emitted :=
  have h := C1_budget_respect_amended (test_collector ⟨1000, 100⟩ 0 0)
    (list_log_storage true true) list_get_record ⟨1000, 100⟩ ⟨0, 1000⟩ [10, 50, 60] 10 c2_out
    rfl rfl rfl list_get_record_conforming (by decide) rfl
  ⟨h.1, h.2.1, h.2.2.2⟩

/-- C2, counterexample: in the scenario with properties volume 1000 and
block size 100 and records 10, 50, 60, the back-patched extension body
length field is 76 (bucket id 2 + count 2 + 16 + 56), not the 80 the
claim states. -/
theorem C2_body_length_cex :
    kaa_logging_request_serialize (test_collector ⟨1000, 100⟩ 0 0) ⟨0, 1000⟩ [10, 50, 60] 10 =
      some c2_out ∧
    c2_out.patched_length = some 76 ∧
    (76 : Nat) ≠ 80 :=
  ⟨by decide, by decide, by decide⟩

/-- C2, amended: with properties volume 1000 and block size 100 and a
conforming backend holding records of sizes 10, 50 and 60, the request
serializer succeeds, emits exactly the 10- and 50-byte records,
back-patches the record count to 2 and the body length to 76 (not 80),
and leaves the 60-byte record buffered in the backend. -/
theorem C2_three_record_scenario :
    get_record_conforming list_get_record ∧
    kaa_logging_request_serialize (test_collector ⟨1000, 100⟩ 0 0) ⟨0, 1000⟩ [10, 50, 60] 10 =
      some c2_out ∧
    c2_out.error = KAA_ERR_NONE ∧
    c2_out.emitted = [10, 50] ∧
    c2_out.patched_count = some 2 ∧
    c2_out.patched_length = some 76 ∧
    c2_out.storage = [60] :=
  ⟨list_get_record_conforming, by decide, by decide, by decide, by decide, by decide, by decide⟩

/-- C4, counterexample: with empty storage the serializer back-patches a
body length of 4 (the bucket-id and count fields), not the 8 the claim
states. -/
theorem C4_body_length_cex :
    kaa_logging_request_serialize (test_collector ⟨1000, 100⟩ 0 0) ⟨0, 1000⟩ [] 10 =
      some c4_out ∧
    c4_out.patched_length = some 4 ∧
    (4 : Nat) ≠ 8 :=
  ⟨by decide, by decide, by decide⟩

/-- C4, amended: with zero eligible records the serializer succeeds (no
error), emits a well-formed empty extension with back-patched record
count 0, and back-patches a body length of 4 (not 8). -/
theorem C4_empty_storage_scenario :
    kaa_logging_request_serialize (test_collector ⟨1000, 100⟩ 0 0) ⟨0, 1000⟩ [] 10 =
      some c4_out ∧
    c4_out.error = KAA_ERR_NONE ∧
    c4_out.patched_count = some 0 ∧
    c4_out.patched_length = some 4 ∧
    c4_out.emitted = [] :=
  ⟨by decide, by decide, by decide, by decide, by decide⟩

/-- C3, counterexample: `kaa_logging_request_serialize` reads the
durable bucket id (5) when the in-memory id is unset, emits 6, but never
writes the incremented value back to durable status storage — the
outcome still carries status 5, so after a process restart (a fresh
collector over the same durable status) the very same id 6 is emitted
again, a repeat with no 16-bit wraparound involved. -/
theorem C3_bucket_id_not_persisted_cex :
    serialize_run 5 0 1 = [6] ∧
    (kaa_logging_request_serialize (test_collector ⟨1000, 100⟩ 5 0) ⟨0, 1000⟩ [] 1).map
      serialize_outcome.status = some ⟨5⟩ ∧
    serialize_run 5 0 1 ++ serialize_run 5 0 1 = [6, 6] ∧
    (6 : Nat) < 2 ^ 16 - 1 :=
  ⟨by decide, by decide, by decide, by decide⟩

/-- C3, amended: within one process run, successive
`kaa_logging_request_serialize` calls emit strictly incrementing bucket
ids — starting from the durable status id when the in-memory id is
unset, from the in-memory id otherwise — with no repeats before 16-bit
wraparound; but the incremented id is never written back to durable
status storage, so it does not survive a process restart. -/
theorem C3_monotonic_in_run (p m n : Nat)
    (h : (if m = 0 then p else m) + n < 2 ^ 16) :
    serialize_run p m n =
      (List.range n).map (fun k => (if m = 0 then p else m) + 1 + k) ∧
    (serialize_run p m n).Nodup := by
  refine ⟨serialize_run_eq p n m h, ?_⟩
  rw [serialize_run_eq p n m h]
  exact (List.nodup_range n).map fun a b hab => Nat.add_left_cancel hab

/-- C3, witness: three successive calls from a fresh collector over
durable id 5 emit the distinct ids 6, 7, 8. -/
theorem C3_monotonic_witness :
    serialize_run 5 0 3 = [6, 7, 8] ∧ (serialize_run 5 0 3).Nodup :=
  ⟨((C3_monotonic_in_run 5 0 3 (by decide)).1).trans (by decide),
    (C3_monotonic_in_run 5 0 3 (by decide)).2⟩

/-- C5, counterexample: a collector with backend, status view and
decision function bound but `log_properties` still null sails past the
readiness check of `kaa_logging_add_record` — the record is handed to
the backend and the call returns success, not the not-ready error the
claim requires for any of the four unbound dependencies. -/
theorem C5_properties_unchecked_cex :
    kaa_logging_add_record no_props_collector ⟨1⟩ ([] : List Nat) =
      ⟨KAA_ERR_NONE, [1], 1, 1, false⟩ ∧
    no_props_collector.log_properties = none ∧
    KAA_ERR_NONE ≠ KAA_ERR_BAD_STATE :=
  ⟨by decide, by decide, by decide⟩

/-- C5, amended: `kaa_logging_add_record` fails with the not-ready error
(leaving the backend untouched, no policy evaluation) whenever the
backend storage, the decision function or the status view is unbound;
the `log_properties` binding is not part of the check, and with the
other three bound the call never returns the not-ready error. -/
theorem C5_readiness_guard_amended {σ : Type} (self : kaa_log_collector σ)
    (entry : kaa_user_log_record) (stor : σ) :
    (self.log_storage = none ∨ self.is_upload_needed_fn = none ∨
        self.log_storage_status = none →
      kaa_logging_add_record self entry stor = ⟨KAA_ERR_BAD_STATE, stor, 0, 0, false⟩) ∧
    (self.log_storage ≠ none → self.is_upload_needed_fn ≠ none →
        self.log_storage_status ≠ none →
      (kaa_logging_add_record self entry stor).error ≠ KAA_ERR_BAD_STATE) := by
  constructor
  · intro hnone
    rcases hs : self.log_storage with _ | sif <;>
      rcases hf : self.is_upload_needed_fn with _ | f <;>
        rcases hv : self.log_storage_status with _ | v <;>
          simp only [kaa_logging_add_record, hs, hf, hv]
    rcases hnone with h | h | h
    · exact absurd (hs.symm.trans h) (by simp)
    · exact absurd (hf.symm.trans h) (by simp)
    · exact absurd (hv.symm.trans h) (by simp)
  · intro h1 h2 h3
    rcases hs : self.log_storage with _ | sif
    · exact absurd hs h1
    rcases hf : self.is_upload_needed_fn with _ | f
    · exact absurd hf h2
    rcases hv : self.log_storage_status with _ | v
    · exact absurd hv h3
    simp only [kaa_logging_add_record, hs, hf, hv]
    split <;> simp

/-- C5, witness: the amended theorem at a fully uninitialized collector
(not-ready) and at a fully initialized one (some other result). -/
theorem C5_readiness_guard_witness :
    kaa_logging_add_record uninit_collector ⟨1⟩ ([] : List Nat) =
      ⟨KAA_ERR_BAD_STATE, [], 0, 0, false⟩ ∧
    (kaa_logging_add_record (test_collector ⟨1000, 100⟩ 0 0) ⟨1⟩ ([] : List Nat)).error ≠
      KAA_ERR_BAD_STATE :=
  ⟨(C5_readiness_guard_amended uninit_collector ⟨1⟩ []).1 (Or.inl rfl),
    (C5_readiness_guard_amended (test_collector ⟨1000, 100⟩ 0 0) ⟨1⟩ []).2
      (by simp [test_collector]) (by simp [test_collector]) (by simp [test_collector])⟩

/-- C6: for an initialized collector, `kaa_logging_add_record` with an
entry whose `get_size` is zero or negative fails with the
invalid-argument error, leaves the backend untouched (no
`add_log_record` call), and never evaluates the decision policy. -/
theorem C6_nonpositive_size_rejected {σ : Type} (self : kaa_log_collector σ)
    (storage_if : kaa_log_storage σ) (need_upl : kaa_storage_status → kaa_log_upload_decision)
    (status_view : kaa_storage_status) (entry : kaa_user_log_record) (stor : σ)
    (hs : self.log_storage = some storage_if)
    (hf : self.is_upload_needed_fn = some need_upl)
    (hv : self.log_storage_status = some status_view)
    (hsize : entry.get_size ≤ 0) :
    kaa_logging_add_record self entry stor = ⟨KAA_ERR_BADPARAM, stor, 0, 0, false⟩ := by
  simp only [kaa_logging_add_record, hs, hf, hv]
  rw [if_neg (by omega)]

/-- C6, witness: a zero-sized entry against a fully initialized
collector is rejected with the backend untouched. -/
theorem C6_nonpositive_size_witness :
    (⟨0⟩ : kaa_user_log_record).get_size ≤ 0 ∧
    kaa_logging_add_record (test_collector ⟨1000, 100⟩ 0 0) ⟨0⟩ ([] : List Nat) =
      ⟨KAA_ERR_BADPARAM, [], 0, 0, false⟩ :=
  ⟨by decide,
    C6_nonpositive_size_rejected (test_collector ⟨1000, 100⟩ 0 0) (list_log_storage true true)
      (fun _ => kaa_log_upload_decision.NOOP) ⟨0, 0⟩ ⟨0⟩ [] rfl rfl rfl (by decide)⟩

/-- C7: if a write step inside the record loop of
`kaa_logging_request_serialize` fails — the 4-byte size field or the
aligned payload, i.e. any failure after the extension header itself fit
— the function invokes the backend's `upload_failed` with the current
bucket id exactly when that callback is non-null, returns the
write-failed error, and never back-patches the count or length fields
(no completed batch). -/
theorem C7_write_failure_aborts {σ : Type} (self : kaa_log_collector σ)
    (storage_if : kaa_log_storage σ) (get : Nat → Int → σ → Option kaa_log_entry × σ)
    (props : kaa_log_upload_properties) (w : kaa_platform_message_writer) (stor : σ)
    (fuel : Nat) (out : serialize_outcome σ)
    (hs : self.log_storage = some storage_if)
    (hg : storage_if.get_record = some get)
    (hp : self.log_properties = some props)
    (hheader : w.pos + KAA_EXTENSION_HEADER_SIZE ≤ w.cap)
    (h : kaa_logging_request_serialize self w stor fuel = some out)
    (he : out.error = KAA_ERR_WRITE_FAILED) :
    out.uf_calls = (if storage_if.upload_failed.isSome then [out.log_bucket_id] else []) ∧
    out.patched_count = none ∧
    out.patched_length = none := by
  simp only [kaa_logging_request_serialize, hs, hg, hp] at h
  split at h
  · next hw1 =>
    rw [kaa_platform_message_extension_header_write, kaa_platform_message_write,
      if_pos hheader] at hw1
    exact Option.noConfusion hw1
  · next w1 hw1 =>
    split at h
    · exact Option.noConfusion h
    · next stor1 uf hloop =>
      injection h with h
      subst h
      exact ⟨serialize_loop_write_failed_spec storage_if get _ fuel stor _ _ _ hloop, rfl, rfl⟩
    · next stor1 w3 remaining1 count1 emitted1 hloop =>
      injection h with h
      subst h
      simp at he

/-- C7, witness: a 14-byte buffer fits the 8-byte header and the raw
4 bytes of bucket id and count, but not the first record's size field;
the run aborts with the write-failed error and one `upload_failed` call
for bucket 1. -/
theorem C7_write_failure_witness :
    c7_out.uf_calls =
      (if (list_log_storage true true).upload_failed.isSome then [c7_out.log_bucket_id]
       else []) ∧
    c7_out.patched_count = none ∧
    c7_out.patched_length = none :=
  C7_write_failure_aborts (test_collector ⟨1000, 100⟩ 0 0) (list_log_storage true true)
    list_get_record ⟨1000, 100⟩ ⟨0, 14⟩ [5] 10 c7_out rfl rfl rfl (by decide) (by decide) rfl

/-- C8: for an initialized collector, `kaa_logging_handle_server_sync`
succeeds, re-evaluates the decision policy exactly once, and dispatches
the acknowledgment on the result code: code 0 invokes
`upload_succeeded` with the received bucket id exactly once when that
callback is present (never `upload_failed`), any other code the inverse;
an absent callback is not an error. -/
theorem C8_ack_dispatch {σ : Type} (self : kaa_log_collector σ) (storage_if : kaa_log_storage σ)
    (need_upl : kaa_storage_status → kaa_log_upload_decision) (status_view : kaa_storage_status)
    (reader : kaa_platform_message_reader) (extension_options extension_length : Nat) (stor : σ)
    (hs : self.log_storage = some storage_if)
    (hf : self.is_upload_needed_fn = some need_upl)
    (hv : self.log_storage_status = some status_view) :
    (kaa_logging_handle_server_sync self reader extension_options extension_length stor).error =
      KAA_ERR_NONE ∧
    (kaa_logging_handle_server_sync self reader extension_options extension_length
        stor).policy_evals = 1 ∧
    (read_result_code reader = 0 →
      (kaa_logging_handle_server_sync self reader extension_options extension_length
          stor).succeeded_calls =
        (if storage_if.upload_succeeded.isSome then [read_bucket_id reader] else []) ∧
      (kaa_logging_handle_server_sync self reader extension_options extension_length
          stor).failed_calls = []) ∧
    (read_result_code reader ≠ 0 →
      (kaa_logging_handle_server_sync self reader extension_options extension_length
          stor).failed_calls =
        (if storage_if.upload_failed.isSome then [read_bucket_id reader] else []) ∧
      (kaa_logging_handle_server_sync self reader extension_options extension_length
          stor).succeeded_calls = []) := by
  have hpe : ∀ s : σ, (update_storage self s).policy_evals = 1 := fun s =>
    update_storage_policy_evals self s need_upl status_view hf hv
  cases hus : storage_if.upload_succeeded <;> cases huf : storage_if.upload_failed <;>
    by_cases hres : read_result_code reader = 0 <;>
      simp [kaa_logging_handle_server_sync, hs, hus, huf, hres, hpe]

/-- C8, witness: a success response for bucket 7 yields exactly one
`upload_succeeded` call with 7 and no `upload_failed`; a failure
response the inverse; the policy runs once either way. -/
theorem C8_ack_dispatch_witness :
    (kaa_logging_handle_server_sync (test_collector ⟨1000, 100⟩ 0 0) ⟨[0, 7, 0, 0], 0⟩ 3 4
        ([] : List Nat)).error = KAA_ERR_NONE ∧
    (kaa_logging_handle_server_sync (test_collector ⟨1000, 100⟩ 0 0) ⟨[0, 7, 0, 0], 0⟩ 3 4
        ([] : List Nat)).policy_evals = 1 ∧
    ((kaa_logging_handle_server_sync (test_collector ⟨1000, 100⟩ 0 0) ⟨[0, 7, 0, 0], 0⟩ 3 4
        ([] : List Nat)).succeeded_calls = [7] ∧
      (kaa_logging_handle_server_sync (test_collector ⟨1000, 100⟩ 0 0) ⟨[0, 7, 0, 0], 0⟩ 3 4
        ([] : List Nat)).failed_calls = []) ∧
    ((kaa_logging_handle_server_sync (test_collector ⟨1000, 100⟩ 0 0) ⟨[0, 7, 1, 0], 0⟩ 3 4
        ([] : List Nat)).failed_calls = [7] ∧
      (kaa_logging_handle_server_sync (test_collector ⟨1000, 100⟩ 0 0) ⟨[0, 7, 1, 0], 0⟩ 3 4
        ([] : List Nat)).succeeded_calls = []) :=
  have h1 := C8_ack_dispatch (test_collector ⟨1000, 100⟩ 0 0) (list_log_storage true true)
    (fun _ => kaa_log_upload_decision.NOOP) ⟨0, 0⟩ ⟨[0, 7, 0, 0], 0⟩ 3 4 [] rfl rfl rfl
  have h2 := C8_ack_dispatch (test_collector ⟨1000, 100⟩ 0 0) (list_log_storage true true)
    (fun _ => kaa_log_upload_decision.NOOP) ⟨0, 0⟩ ⟨[0, 7, 1, 0], 0⟩ 3 4 [] rfl rfl rfl
  ⟨h1.1, h1.2.1, h1.2.2.1 (by decide), h2.2.2.2 (by decide)⟩

/-- C9: with status view and properties bound,
`kaa_profile_request_get_size` returns exactly the fixed extension
header size plus 4 plus the minimum of `max_log_block_size` and
`record_count * 4 + record_count * 3 + total_size` read from the status
view; with either unbound it fails with the not-initialized error. -/
theorem C9_request_size_estimate {σ : Type} (self : kaa_log_collector σ) :
    (∀ status_view props, self.log_storage_status = some status_view →
      self.log_properties = some props →
      kaa_profile_request_get_size self =
        (KAA_ERR_NONE, KAA_EXTENSION_HEADER_SIZE + 4 +
          min props.max_log_block_size
            (status_view.get_records_count * 4 + status_view.get_records_count * 3 +
              status_view.get_total_size))) ∧
    (self.log_storage_status = none ∨ self.log_properties = none →
      kaa_profile_request_get_size self = (KAA_ERR_NOT_INITIALIZED, 0)) := by
  constructor
  · intro status_view props hv hp
    simp only [kaa_profile_request_get_size, hv, hp, KAA_MAX_PADDING_LENGTH, Prod.mk.injEq,
      true_and]
    split <;> omega
  · intro h
    rcases hv : self.log_storage_status with _ | v
    · simp [kaa_profile_request_get_size, hv]
    · rcases h with h | h
      · exact absurd (hv.symm.trans h) (by simp)
      · simp [kaa_profile_request_get_size, hv, h]

/-- C9, witness: a status view of 3 records totalling 50 bytes with
block size 100 estimates 8 + 4 + min 100 71 = 83; an uninitialized
collector fails with the not-initialized error. -/
theorem C9_request_size_witness :
    kaa_profile_request_get_size c9_collector =
      (KAA_ERR_NONE, KAA_EXTENSION_HEADER_SIZE + 4 + min 100 (3 * 4 + 3 * 3 + 50)) ∧
    kaa_profile_request_get_size uninit_collector = (KAA_ERR_NOT_INITIALIZED, 0) :=
  ⟨(C9_request_size_estimate c9_collector).1 ⟨3, 50⟩ ⟨1000, 100⟩ rfl rfl,
    (C9_request_size_estimate uninit_collector).2 (Or.inl rfl)⟩

/-- C10: `kaa_logging_handle_server_sync` ignores its
`extension_options` and `extension_length` arguments entirely (the
outcome is identical for any two values of each), always advances the
reader by exactly 4 bytes when a backend is bound, and treats every
nonzero result code — not only 1 — as a failure: `upload_succeeded` is
never invoked and `upload_failed` is invoked with the received bucket id
exactly when that callback is present. -/
theorem C10_nonzero_result_and_ignored_args {σ : Type} (self : kaa_log_collector σ)
    (reader : kaa_platform_message_reader) (opts1 len1 opts2 len2 : Nat) (stor : σ)
    (storage_if : kaa_log_storage σ) (hs : self.log_storage = some storage_if) :
    kaa_logging_handle_server_sync self reader opts1 len1 stor =
      kaa_logging_handle_server_sync self reader opts2 len2 stor ∧
    (kaa_logging_handle_server_sync self reader opts1 len1 stor).reader_pos = reader.pos + 4 ∧
    (read_result_code reader ≠ 0 →
      (kaa_logging_handle_server_sync self reader opts1 len1 stor).succeeded_calls = [] ∧
      (kaa_logging_handle_server_sync self reader opts1 len1 stor).failed_calls =
        (if storage_if.upload_failed.isSome then [read_bucket_id reader] else [])) := by
  refine ⟨rfl, ?_, ?_⟩
  · cases hus : storage_if.upload_succeeded <;> cases huf : storage_if.upload_failed <;>
      by_cases hres : read_result_code reader = 0 <;>
        simp [kaa_logging_handle_server_sync, hs, hus, huf, hres]
  · intro hres
    cases hus : storage_if.upload_succeeded <;> cases huf : storage_if.upload_failed <;>
      simp [kaa_logging_handle_server_sync, hs, hus, huf, hres]

/-- C10, witness: result code 2 (nonzero but not 1) for bucket 9 routes
to `upload_failed`, the reader advances 4 bytes, and swapping the unused
option and length arguments leaves the outcome unchanged. -/
theorem C10_nonzero_result_witness :
    kaa_logging_handle_server_sync (test_collector ⟨1000, 100⟩ 0 0) ⟨[0, 9, 2, 0], 0⟩ 1 2
        ([] : List Nat) =
      kaa_logging_handle_server_sync (test_collector ⟨1000, 100⟩ 0 0) ⟨[0, 9, 2, 0], 0⟩ 3 4
        ([] : List Nat) ∧
    (kaa_logging_handle_server_sync (test_collector ⟨1000, 100⟩ 0 0) ⟨[0, 9, 2, 0], 0⟩ 1 2
        ([] : List Nat)).reader_pos = 0 + 4 ∧
    ((kaa_logging_handle_server_sync (test_collector ⟨1000, 100⟩ 0 0) ⟨[0, 9, 2, 0], 0⟩ 1 2
        ([] : List Nat)).succeeded_calls = [] ∧
      (kaa_logging_handle_server_sync (test_collector ⟨1000, 100⟩ 0 0) ⟨[0, 9, 2, 0], 0⟩ 1 2
        ([] : List Nat)).failed_calls = [9]) :=
  have h := C10_nonzero_result_and_ignored_args (test_collector ⟨1000, 100⟩ 0 0)
    ⟨[0, 9, 2, 0], 0⟩ 1 2 3 4 [] (list_log_storage true true) rfl
  ⟨h.1, h.2.1, h.2.2 (by decide)⟩
